import Mathlib

/-!
Shallow embedding of `tensorflow/lite/micro/tools/requantize_flatbuffer_utils.py`.

Numeric values are modelled with `ℚ` (the Python code computes with numpy
float64; the rational model is the exact idealisation of that arithmetic).
`np.round` rounds halves to the nearest even integer, which is modelled by
`roundHalfEven`.  Fallible Python operations (list indexing, `np.frombuffer`
on a buffer whose size is not a multiple of the item size, reductions over
empty arrays, the explicit `RuntimeError`) are modelled with `Except String`.
Tensors and buffers live in lists; Python's in-place mutation of objects held
in those lists is modelled by functional updates at the corresponding index,
re-reading an object's current state at each use site.
-/

namespace Requantize

instance instDecidableEqExcept {ε α : Type} [DecidableEq ε] [DecidableEq α] :
    DecidableEq (Except ε α)
  | .ok a, .ok b => if h : a = b then .isTrue (by rw [h]) else .isFalse (by simp [h])
  | .ok _, .error _ => .isFalse (by simp)
  | .error _, .ok _ => .isFalse (by simp)
  | .error a, .error b => if h : a = b then .isTrue (by rw [h]) else .isFalse (by simp [h])

/-- Rounding of `np.round` (IEEE round-half-to-even) on exact rationals.
With `f = ⌊x⌋` and fractional part `r = x - f`, the guards `r < 1/2` and
`1/2 < r` are phrased multiplicatively as `2x < 2f + 1` and `2f + 1 < 2x`. -/
def roundHalfEven (x : ℚ) : ℤ :=
  let f := ⌊x⌋
  if 2 * x < 2 * (f : ℚ) + 1 then f
  else if 2 * (f : ℚ) + 1 < 2 * x then f + 1
  else if f % 2 = 0 then f else f + 1

/-- `float.astype(np.int64)`: C-style truncation toward zero (the values the
code converts are integer-valued, where truncation is the identity). -/
def npAstypeInt64 (x : ℚ) : ℤ :=
  if 0 ≤ x then ⌊x⌋ else ⌈x⌉

/-! Tensor type codes, from the external flatbuffer schema enumeration
(`TensorType` in `schema_py_generated`); the module depends only on the
int8/int16/int32/int64 entries of `TENSOR_TYPE_CODE`. -/

def INT32_CODE : ℤ := 2
def INT64_CODE : ℤ := 4
def INT16_CODE : ℤ := 7
def INT8_CODE : ℤ := 9

/-- The `quantization` record of a tensor. -/
structure QuantizationParameters where
  scale : List ℚ
  zeroPoint : List ℤ
  quantizedDimension : ℤ
deriving DecidableEq

/-- A flatbuffer tensor: declared element type code, index into the shared
buffer table, and quantization record. -/
structure Tensor where
  type : ℤ
  buffer : ℕ
  quantization : QuantizationParameters
deriving DecidableEq

/-- A flatbuffer buffer: raw bytes. -/
structure Buffer where
  data : List ℕ
deriving DecidableEq

/-- An operator: input and output tensor indices (`-1` marks an absent
optional input). -/
structure Operator where
  inputs : List ℤ
  outputs : List ℤ
deriving DecidableEq

/-- Python list index normalisation (negative indices count from the end);
out of range raises `IndexError`. -/
def pyNormIndex (len : ℕ) (i : ℤ) : Except String ℕ :=
  if 0 ≤ i ∧ i < (len : ℤ) then .ok i.toNat
  else if -(len : ℤ) ≤ i ∧ i < 0 then .ok (i + len).toNat
  else .error "list index out of range"

/-- Python list read `l[i]`. -/
def pyListGet {α : Type} (l : List α) (i : ℤ) : Except String α :=
  match pyNormIndex l.length i with
  | .ok n =>
    match l[n]? with
    | some a => .ok a
    | none => .error "list index out of range"
  | .error e => .error e

/-! ### Saturating quantization arithmetic (source lines 46–99) -/

/-- `clip_range(vals, bit_width)`: clip to the signed range of `bit_width`
bits; the boolean reports whether the overflow warning was logged.
`vals.max()` on an empty numpy array raises, hence the error case. -/
def clip_range (vals : List ℚ) (bit_width : ℤ) : Except String (Bool × List ℚ) :=
  if vals = [] then .error "zero-size array to reduction operation"
  else
    let min_val : ℚ := -(2 : ℚ) ^ (bit_width - 1)
    let max_val : ℚ := (2 : ℚ) ^ (bit_width - 1) - 1
    let warned := vals.any fun v => decide (max_val < v) || decide (v < min_val)
    .ok (warned, vals.map fun v => min (max v min_val) max_val)

/-- `quantize_data(data, scale, zero_point, bit_width)`:
`np.round(data / scale) + zero_point`, then `clip_range`. -/
def quantize_data (data : List ℚ) (scale : ℚ) (zero_point : ℤ) (bit_width : ℤ) :
    Except String (Bool × List ℚ) :=
  clip_range (data.map fun d => ((roundHalfEven (d / scale) : ℤ) : ℚ) + (zero_point : ℚ))
    bit_width

/-- `dequantize_data(quantized_data, scale, zero_point)`:
`scale * (quantized_data - zero_point)`. -/
def dequantize_data (quantized_data : List ℚ) (scale : ℚ) (zero_point : ℤ) : List ℚ :=
  quantized_data.map fun q => scale * (q - (zero_point : ℚ))

/-! ### Activation retyping (source lines 102–133) -/

/-- `change_quantization_settings_8to16(tensor)`. -/
def change_quantization_settings_8to16 (tensor : Tensor) : Except String Tensor :=
  if tensor.quantization.quantizedDimension ≠ 0 then
    .error "Only layer level quantization is supported. Per channel quantization is not supported now"
  else
    match tensor.quantization.scale.head?, tensor.quantization.zeroPoint.head? with
    | some scale, some zero_point =>
      let MAX_INT8 : ℤ := 128
      let MIN_INT8 : ℤ := -128
      let MIN_INT16 : ℤ := -32767
      let rmax : ℚ := scale * ((MAX_INT8 : ℚ) - (zero_point : ℚ))
      let rmin : ℚ := scale * ((MIN_INT8 : ℚ) - (zero_point : ℚ))
      let scale_16 : ℚ := max |rmax| |rmin| / |(MIN_INT16 : ℚ)|
      .ok { tensor with
              quantization := { tensor.quantization with
                                  scale := [scale_16], zeroPoint := [0] } }
    | _, _ => .error "list index out of range"

/-- `change_activation_tensor_8to16(tensor)`. -/
def change_activation_tensor_8to16 (tensor : Tensor) : Except String Tensor :=
  if tensor.type = INT8_CODE then do
    let t ← change_quantization_settings_8to16 tensor
    .ok { t with type := INT16_CODE }
  else
    .ok tensor

/-! ### Byte (de)coding used by `np.frombuffer` / `ndarray.tobytes`
(little-endian, two's complement, as on the platforms the tool targets). -/

/-- Decode four little-endian bytes as a signed 32-bit integer. -/
def int32OfLEBytes (b0 b1 b2 b3 : ℕ) : ℤ :=
  let u : ℕ := b0 + 256 * b1 + 256 ^ 2 * b2 + 256 ^ 3 * b3
  if u < 2 ^ 31 then (u : ℤ) else (u : ℤ) - 2 ^ 32

/-- `np.frombuffer(data, dtype=np.int32)`: raises when the byte count is not
a multiple of the item size. -/
def bytesToInt32List : List ℕ → Except String (List ℤ)
  | [] => .ok []
  | b0 :: b1 :: b2 :: b3 :: rest => do
    let r ← bytesToInt32List rest
    .ok (int32OfLEBytes b0 b1 b2 b3 :: r)
  | _ => .error "buffer size must be a multiple of element size"

/-- Encode a signed 64-bit integer as eight little-endian bytes. -/
def int64ToLEBytes (v : ℤ) : List ℕ :=
  let u : ℕ := (v % 2 ^ 64).toNat
  [u % 256, u / 256 % 256, u / 256 ^ 2 % 256, u / 256 ^ 3 % 256,
   u / 256 ^ 4 % 256, u / 256 ^ 5 % 256, u / 256 ^ 6 % 256, u / 256 ^ 7 % 256]

/-- `np.ndarray.tobytes()` for an int64 array. -/
def int64sToBytes (l : List ℤ) : List ℕ :=
  (l.map int64ToLEBytes).flatten

/-! ### Bias retyping (source lines 136–160) -/

/-- `set_bias_type_int64(buffers, input, weight, bias)`: returns the updated
buffer table and the updated bias tensor. -/
def set_bias_type_int64 (buffers : List Buffer) (input weight bias : Tensor) :
    Except String (List Buffer × Tensor) := do
  let bias_buffer ←
    match buffers[bias.buffer]? with
    | some b => Except.ok b
    | none => Except.error "list index out of range"
  let bias_scale ←
    match bias.quantization.scale.head? with
    | some s => Except.ok s
    | none => Except.error "list index out of range"
  let bias_zero_pt ←
    match bias.quantization.zeroPoint.head? with
    | some z => Except.ok z
    | none => Except.error "list index out of range"
  let data ← bytesToInt32List bias_buffer.data
  let dequantized_data := dequantize_data (data.map fun x : ℤ => (x : ℚ)) bias_scale bias_zero_pt
  let input_scale ←
    match input.quantization.scale.head? with
    | some s => Except.ok s
    | none => Except.error "list index out of range"
  let weight_scale ←
    match weight.quantization.scale.head? with
    | some s => Except.ok s
    | none => Except.error "list index out of range"
  let bias_scale_int64 : ℚ := input_scale * weight_scale
  let bias_zero_pt_int64 : ℤ := 0
  let r ← quantize_data dequantized_data bias_scale_int64 bias_zero_pt_int64 64
  let int64_data := r.2.map npAstypeInt64
  let buffers' := buffers.set bias.buffer { bias_buffer with data := int64sToBytes int64_data }
  let bias' := { bias with
                   type := INT64_CODE,
                   quantization := { bias.quantization with
                                       scale := [bias_scale_int64],
                                       zeroPoint := [bias_zero_pt_int64] } }
  .ok (buffers', bias')

/-! ### Operator requantization strategies (source lines 163–219) -/

/-- Read the tensor at python index `i`, retype it via
`change_activation_tensor_8to16`, and store it back (the Python code mutates
the tensor object held in the list). -/
def change_activation_at (tensors : List Tensor) (i : ℤ) : Except String (List Tensor) := do
  let n ← pyNormIndex tensors.length i
  let t ← pyListGet tensors i
  let t' ← change_activation_tensor_8to16 t
  .ok (tensors.set n t')

/-- `requantize_fully_connected(tensors, buffers, op)`: returns the updated
tensor and buffer tables.  The initial `pyListGet`s mirror the tensor-object
lookups at the top of the Python function; later uses re-read the current
state of the same list slot (reference semantics). -/
def requantize_fully_connected (tensors : List Tensor) (buffers : List Buffer)
    (op : Operator) : Except String (List Tensor × List Buffer) := do
  let i0 ← pyListGet op.inputs 0
  let _input_tensor ← pyListGet tensors i0
  let i1 ← pyListGet op.inputs 1
  let _weight_tensor ← pyListGet tensors i1
  let o0 ← pyListGet op.outputs 0
  let _output_tensor ← pyListGet tensors o0
  let tensors1 ← change_activation_at tensors i0
  let tensors2 ← change_activation_at tensors1 o0
  let bidx ← pyListGet op.inputs 2
  if bidx ≠ -1 then do
    let bias_tensor ← pyListGet tensors2 bidx
    let input_cur ← pyListGet tensors2 i0
    let weight_cur ← pyListGet tensors2 i1
    let r ← set_bias_type_int64 buffers input_cur weight_cur bias_tensor
    let nb ← pyNormIndex tensors2.length bidx
    .ok (tensors2.set nb r.2, r.1)
  else
    .ok (tensors2, buffers)

/-- `requantize_softmax(tensors, buffers, op)`: returns the updated tensor
table (the buffer table is not touched). -/
def requantize_softmax (tensors : List Tensor) (_buffers : List Buffer)
    (op : Operator) : Except String (List Tensor) := do
  let i0 ← pyListGet op.inputs 0
  let _input_tensor ← pyListGet tensors i0
  let o0 ← pyListGet op.outputs 0
  let _output_tensor ← pyListGet tensors o0
  let tensors1 ← change_activation_at tensors i0
  let output_tensor ← pyListGet tensors1 o0
  if output_tensor.type = INT8_CODE then do
    let output' := { output_tensor with
                       type := INT16_CODE,
                       quantization := { output_tensor.quantization with
                                           scale := [1 / 32768], zeroPoint := [0] } }
    let n ← pyNormIndex tensors1.length o0
    .ok (tensors1.set n output')
  else
    .ok tensors1

/-! ## Helper lemmas -/

theorem roundHalfEven_intCast (n : ℤ) : roundHalfEven ((n : ℚ)) = n := by
  simp only [roundHalfEven, Int.floor_intCast]
  rw [if_pos]
  linarith [(by exact_mod_cast le_refl n : ((n:ℚ) ≤ (n:ℚ)))]

theorem pyNormIndex_lt {len : ℕ} {i : ℤ} {n : ℕ} (h : pyNormIndex len i = .ok n) :
    n < len := by
  unfold pyNormIndex at h
  split at h
  · rename_i hc
    cases h
    omega
  · split at h
    · rename_i hc
      cases h
      omega
    · cases h

theorem bind_ok {α β : Type} (a : α) (f : α → Except String β) :
    (Except.ok a >>= f : Except String β) = f a := rfl

theorem bind_error {α β : Type} (e : String) (f : α → Except String β) :
    ((Except.error e : Except String α) >>= f) = .error e := rfl

/-- Effect of `change_quantization_settings_8to16` on a layer-level-quantized
tensor (shared helper). -/
theorem change_quantization_settings_8to16_spec (t : Tensor) (s : ℚ) (z : ℤ)
    (hdim : t.quantization.quantizedDimension = 0)
    (hs : t.quantization.scale.head? = some s)
    (hz : t.quantization.zeroPoint.head? = some z) :
    change_quantization_settings_8to16 t =
      .ok { t with quantization := { t.quantization with
              scale := [max |s * (128 - (z:ℚ))| |s * (-128 - (z:ℚ))| / 32767],
              zeroPoint := [0] } } := by
  simp only [change_quantization_settings_8to16, hdim, hs, hz]
  norm_num

/-- Effect of `set_bias_type_int64` when every lookup succeeds (shared
helper, also the content of C2). -/
theorem set_bias_type_int64_aux (buffers : List Buffer) (input weight bias : Tensor)
    (buf : Buffer) (q : List ℤ) (sb si sw : ℚ) (zb : ℤ) (w : Bool) (vals : List ℚ)
    (hbuf : buffers[bias.buffer]? = some buf)
    (hsb : bias.quantization.scale.head? = some sb)
    (hzb : bias.quantization.zeroPoint.head? = some zb)
    (hsi : input.quantization.scale.head? = some si)
    (hsw : weight.quantization.scale.head? = some sw)
    (hq : bytesToInt32List buf.data = .ok q)
    (hquant : quantize_data (dequantize_data (q.map fun x : ℤ => (x:ℚ)) sb zb)
        (si * sw) 0 64 = .ok (w, vals)) :
    set_bias_type_int64 buffers input weight bias =
      .ok (buffers.set bias.buffer
            { buf with data := int64sToBytes (vals.map npAstypeInt64) },
          { bias with
              type := INT64_CODE,
              quantization := { bias.quantization with
                                  scale := [si * sw], zeroPoint := [0] } }) := by
  simp only [set_bias_type_int64, hbuf, hsb, hzb, hsi, hsw, hq, hquant, bind_ok]

theorem npAstypeInt64_twelve : npAstypeInt64 12 = 12 := by
  norm_num [npAstypeInt64]

theorem npAstypeInt64_neg_twelve : npAstypeInt64 (-12) = -12 := by
  rw [npAstypeInt64, if_neg (by norm_num), show ((-12:ℚ)) = (((-12 : ℤ)):ℚ) by norm_num,
    Int.ceil_intCast]

theorem int64sToBytes_single_12 : int64sToBytes [12] = [12, 0, 0, 0, 0, 0, 0, 0] := by
  decide

theorem int64sToBytes_12_neg12 :
    int64sToBytes [12, -12] =
      [12, 0, 0, 0, 0, 0, 0, 0, 244, 255, 255, 255, 255, 255, 255, 255] := by
  decide

theorem pyListGet_ok {α : Type} {l : List α} {i : ℤ} {n : ℕ} {a : α}
    (h : pyNormIndex l.length i = .ok n) (ha : l[n]? = some a) :
    pyListGet l i = .ok a := by
  simp [pyListGet, h, ha]

theorem change_activation_at_ok {tensors : List Tensor} {i : ℤ} {n : ℕ} {t t' : Tensor}
    (hn : pyNormIndex tensors.length i = .ok n) (ht : tensors[n]? = some t)
    (hact : change_activation_tensor_8to16 t = .ok t') :
    change_activation_at tensors i = .ok (tensors.set n t') := by
  simp only [change_activation_at, hn, pyListGet_ok hn ht, hact, bind_ok]

/-! ## Claim theorems -/

/-- C5: `quantize_data` computes `round(data/scale) + zero_point` elementwise,
clamps each element into `[-2^(b-1), 2^(b-1)-1]`, and reports a (non-fatal)
warning exactly when some pre-clamp value lies outside that range, while still
returning the clamped result; in particular `quantize([1000],1,0,8) = [127]`
and `quantize([-1000],1,0,8) = [-128]` (both with the warning). -/
theorem quantize_data_formula_and_saturation :
    (∀ (data : List ℚ) (s : ℚ) (z b : ℤ), data ≠ [] →
      ∃ (w : Bool) (res : List ℚ),
        quantize_data data s z b = .ok (w, res) ∧
        res = data.map (fun d =>
          min (max (((roundHalfEven (d / s) : ℤ) : ℚ) + (z : ℚ)) (-(2:ℚ) ^ (b-1)))
            ((2:ℚ) ^ (b-1) - 1)) ∧
        (w = true ↔ ∃ d ∈ data,
          (2:ℚ) ^ (b-1) - 1 < ((roundHalfEven (d / s) : ℤ) : ℚ) + (z : ℚ) ∨
          ((roundHalfEven (d / s) : ℤ) : ℚ) + (z : ℚ) < -(2:ℚ) ^ (b-1))) ∧
    quantize_data [1000] 1 0 8 = .ok (true, [127]) ∧
    quantize_data [-1000] 1 0 8 = .ok (true, [-128]) := by
  refine ⟨?_, ?_, ?_⟩
  · intro data s z b hne
    simp only [quantize_data, clip_range]
    rw [if_neg (by simpa using hne)]
    refine ⟨_, _, rfl, ?_, ?_⟩
    · rw [List.map_map]
      rfl
    · simp [List.any_eq_true, List.mem_map]
  · norm_num [quantize_data, clip_range, roundHalfEven]
  · norm_num [quantize_data, clip_range, roundHalfEven]

/-- C5 witness: concrete instantiation of the universally quantified part. -/
theorem quantize_data_formula_and_saturation_witness :
    ∃ (w : Bool) (res : List ℚ),
      quantize_data [2] 1 0 8 = .ok (w, res) ∧
      res = [(2:ℚ)].map (fun d =>
        min (max (((roundHalfEven (d / 1) : ℤ) : ℚ) + ((0:ℤ) : ℚ)) (-(2:ℚ) ^ ((8:ℤ)-1)))
          ((2:ℚ) ^ ((8:ℤ)-1) - 1)) ∧
      (w = true ↔ ∃ d ∈ [(2:ℚ)],
        (2:ℚ) ^ ((8:ℤ)-1) - 1 < ((roundHalfEven (d / 1) : ℤ) : ℚ) + ((0:ℤ) : ℚ) ∨
        ((roundHalfEven (d / 1) : ℤ) : ℚ) + ((0:ℤ) : ℚ) < -(2:ℚ) ^ ((8:ℤ)-1)) :=
  quantize_data_formula_and_saturation.1 [2] 1 0 8 (by simp)

/-- C6: for integer-valued data strictly inside the representable signed range
of bit width `b`, quantization inverts dequantization exactly (and no overflow
warning fires). -/
theorem quantize_dequantize_roundtrip (q : List ℤ) (s : ℚ) (z b : ℤ)
    (hq : q ≠ []) (hs : s ≠ 0)
    (hrange : ∀ x ∈ q, -(2:ℚ) ^ (b-1) < (x:ℚ) ∧ (x:ℚ) < (2:ℚ) ^ (b-1) - 1) :
    quantize_data (dequantize_data (q.map fun x : ℤ => (x:ℚ)) s z) s z b =
      .ok (false, q.map fun x : ℤ => (x:ℚ)) := by
  have key : ∀ x : ℤ,
      ((roundHalfEven (s * ((x:ℚ) - (z:ℚ)) / s) : ℤ) : ℚ) + (z:ℚ) = (x:ℚ) := by
    intro x
    have h1 : s * ((x:ℚ) - (z:ℚ)) / s = ((x - z : ℤ) : ℚ) := by
      push_cast
      field_simp
    rw [h1, roundHalfEven_intCast]
    push_cast
    ring
  simp only [quantize_data, dequantize_data, List.map_map]
  have hmap : q.map ((fun d => ((roundHalfEven (d / s) : ℤ) : ℚ) + (z:ℚ)) ∘
      (fun q1 => s * (q1 - (z:ℚ))) ∘ fun x : ℤ => (x:ℚ)) = q.map fun x : ℤ => (x:ℚ) :=
    List.map_congr_left fun x _ => key x
  rw [hmap]
  simp only [clip_range]
  rw [if_neg (by simpa using hq)]
  have hclip : (q.map fun x : ℤ => (x:ℚ)).map
      (fun v => min (max v (-(2:ℚ) ^ (b-1))) ((2:ℚ) ^ (b-1) - 1)) =
      q.map fun x : ℤ => (x:ℚ) := by
    rw [List.map_map]
    refine List.map_congr_left fun x hx => ?_
    have hb := hrange x hx
    simp only [Function.comp]
    rw [max_eq_left (le_of_lt hb.1), min_eq_left (le_of_lt hb.2)]
  have hwarn : (q.map fun x : ℤ => (x:ℚ)).any
      (fun v => decide ((2:ℚ) ^ (b-1) - 1 < v) || decide (v < -(2:ℚ) ^ (b-1))) = false := by
    simp only [List.any_eq_false, List.mem_map]
    rintro v ⟨x, hx, rfl⟩
    have hb := hrange x hx
    simp only [Bool.or_eq_true, decide_eq_true_eq, not_or, not_lt]
    exact ⟨le_of_lt hb.2, le_of_lt hb.1⟩
  rw [hclip, hwarn]

/-- C6 witness. -/
theorem quantize_dequantize_roundtrip_witness :
    quantize_data (dequantize_data ([(3:ℤ), -3].map fun x : ℤ => (x:ℚ)) (1/2) 5) (1/2) 5 8 =
      .ok (false, [(3:ℤ), -3].map fun x : ℤ => (x:ℚ)) :=
  quantize_dequantize_roundtrip [3, -3] (1/2) 5 8 (by simp) (by norm_num)
    (by intro x hx; fin_cases hx <;> norm_num)

/-- C10: whenever `quantize_data` returns, every element of the returned list
lies in `[-2^(b-1), 2^(b-1)-1]`, and the returned list is the clamped
elementwise formula — independent of whether the warning flag fired. -/
theorem quantize_data_result_in_range (data : List ℚ) (s : ℚ) (z b : ℤ)
    (hb : 1 ≤ b) (_hs : s ≠ 0) (w : Bool) (res : List ℚ)
    (h : quantize_data data s z b = .ok (w, res)) :
    res = data.map (fun d =>
      min (max (((roundHalfEven (d / s) : ℤ) : ℚ) + (z : ℚ)) (-(2:ℚ) ^ (b-1)))
        ((2:ℚ) ^ (b-1) - 1)) ∧
    ∀ v ∈ res, -(2:ℚ) ^ (b-1) ≤ v ∧ v ≤ (2:ℚ) ^ (b-1) - 1 := by
  have hpow : (1:ℚ) ≤ (2:ℚ) ^ (b-1) := by
    apply one_le_zpow₀ (by norm_num)
    omega
  have hlohi : -(2:ℚ) ^ (b-1) ≤ (2:ℚ) ^ (b-1) - 1 := by linarith
  simp only [quantize_data, clip_range] at h
  split at h
  · cases h
  · injection h with h'
    rw [Prod.mk.injEq] at h'
    obtain ⟨hw, hres⟩ := h'
    constructor
    · rw [← hres, List.map_map]
      rfl
    · intro v hv
      rw [← hres] at hv
      simp only [List.mem_map] at hv
      obtain ⟨d, _, rfl⟩ := hv
      exact ⟨le_min (le_max_right _ _) hlohi, min_le_right _ _⟩

/-- C10 witness. -/
theorem quantize_data_result_in_range_witness :
    [(300:ℚ)].map (fun d =>
        min (max (((roundHalfEven (d / 1) : ℤ) : ℚ) + ((0:ℤ) : ℚ)) (-(2:ℚ) ^ ((8:ℤ)-1)))
          ((2:ℚ) ^ ((8:ℤ)-1) - 1)) = [(127:ℚ)] ∧
    (([(127:ℚ)] = [(300:ℚ)].map (fun d =>
        min (max (((roundHalfEven (d / 1) : ℤ) : ℚ) + ((0:ℤ) : ℚ)) (-(2:ℚ) ^ ((8:ℤ)-1)))
          ((2:ℚ) ^ ((8:ℤ)-1) - 1))) ∧
      ∀ v ∈ [(127:ℚ)], -(2:ℚ) ^ ((8:ℤ)-1) ≤ v ∧ v ≤ (2:ℚ) ^ ((8:ℤ)-1) - 1) := by
  constructor
  · norm_num [roundHalfEven]
  · exact quantize_data_result_in_range [300] 1 0 8 (by norm_num) (by norm_num) true [127]
      (by norm_num [quantize_data, clip_range, roundHalfEven])

/-- C1: for an 8-bit-typed tensor with `quantizedDimension = 0`, layer scale
`s` and zero point `z`, activation retyping sets the quantization to
`scale = [max(|s*(128-z)|, |s*(-128-z)|) / 32767]`, `zeroPoint = [0]`, and the
declared type to the 16-bit signed code. -/
theorem change_activation_tensor_8to16_int8 (t : Tensor) (s : ℚ) (z : ℤ)
    (htype : t.type = INT8_CODE)
    (hdim : t.quantization.quantizedDimension = 0)
    (hs : t.quantization.scale.head? = some s)
    (hz : t.quantization.zeroPoint.head? = some z) :
    change_activation_tensor_8to16 t =
      .ok { t with
              type := INT16_CODE,
              quantization := { t.quantization with
                scale := [max |s * (128 - (z:ℚ))| |s * (-128 - (z:ℚ))| / 32767],
                zeroPoint := [0] } } := by
  simp only [change_activation_tensor_8to16, htype, if_pos]
  rw [change_quantization_settings_8to16_spec t s z hdim hs hz, bind_ok]

/-- C1 witness: the spec's own example `scale = 0.5`, `zeroPoint = 10`. -/
theorem change_activation_tensor_8to16_int8_witness :
    change_activation_tensor_8to16 ⟨INT8_CODE, 0, ⟨[1/2], [10], 0⟩⟩ =
      .ok { (⟨INT8_CODE, 0, ⟨[1/2], [10], 0⟩⟩ : Tensor) with
              type := INT16_CODE,
              quantization := { (⟨[1/2], [10], 0⟩ : QuantizationParameters) with
                scale := [max |(1/2 : ℚ) * (128 - ((10:ℤ):ℚ))| |(1/2 : ℚ) * (-128 - ((10:ℤ):ℚ))| / 32767],
                zeroPoint := [0] } } :=
  change_activation_tensor_8to16_int8 ⟨INT8_CODE, 0, ⟨[1/2], [10], 0⟩⟩ (1/2) 10
    rfl rfl rfl rfl

/-- C7: activation retyping is idempotent: running
`change_activation_tensor_8to16` on its own result changes nothing, because
the first run leaves the type different from the 8-bit code. -/
theorem change_activation_tensor_8to16_idempotent (t : Tensor) :
    (change_activation_tensor_8to16 t).bind change_activation_tensor_8to16 =
      change_activation_tensor_8to16 t := by
  by_cases htype : t.type = INT8_CODE
  · cases hset : change_quantization_settings_8to16 t with
    | error e =>
      simp [change_activation_tensor_8to16, htype, hset, bind_ok, bind_error, Except.bind]
    | ok t' =>
      simp [change_activation_tensor_8to16, htype, hset, bind_ok, bind_error, Except.bind,
        INT16_CODE, INT8_CODE]
  · simp [change_activation_tensor_8to16, htype, Except.bind]

/-- C3 (amended): an 8-bit activation tensor with `quantizedDimension ≠ 0`
makes activation retyping fail with the per-channel `RuntimeError` (and, the
function being functional here as in the source, no field is mutated); bias
retyping and the softmax output path perform no such check (see the
counterexample). -/
theorem change_activation_perchannel_fatal (t : Tensor)
    (htype : t.type = INT8_CODE)
    (hdim : t.quantization.quantizedDimension ≠ 0) :
    change_activation_tensor_8to16 t =
      .error "Only layer level quantization is supported. Per channel quantization is not supported now" := by
  simp [change_activation_tensor_8to16, change_quantization_settings_8to16,
    htype, hdim, bind_error]

/-- C3 witness. -/
theorem change_activation_perchannel_fatal_witness :
    change_activation_tensor_8to16 ⟨INT8_CODE, 0, ⟨[1], [0], 1⟩⟩ =
      .error "Only layer level quantization is supported. Per channel quantization is not supported now" :=
  change_activation_perchannel_fatal ⟨INT8_CODE, 0, ⟨[1], [0], 1⟩⟩ rfl (by decide)

/-- C3 counterexample: a bias tensor with `quantizedDimension = 1` is *not*
rejected: `set_bias_type_int64` succeeds and mutates its type, quantization
and buffer, contradicting the claim that every touched tensor with
`quantizedDimension ≠ 0` triggers a fatal error with no mutation. -/
theorem set_bias_perchannel_not_rejected :
    set_bias_type_int64 [⟨[5, 0, 0, 0]⟩]
        ⟨INT16_CODE, 0, ⟨[1/10], [0], 0⟩⟩
        ⟨INT8_CODE, 0, ⟨[1/5], [0], 0⟩⟩
        ⟨INT32_CODE, 0, ⟨[1/20], [0], 1⟩⟩ =
      .ok ([⟨[12, 0, 0, 0, 0, 0, 0, 0]⟩], ⟨INT64_CODE, 0, ⟨[1/50], [0], 1⟩⟩) ∧
    (⟨INT64_CODE, 0, ⟨[1/50], [0], 1⟩⟩ : Tensor) ≠ ⟨INT32_CODE, 0, ⟨[1/20], [0], 1⟩⟩ := by
  constructor
  · have h := set_bias_type_int64_aux [⟨[5, 0, 0, 0]⟩]
      ⟨INT16_CODE, 0, ⟨[1/10], [0], 0⟩⟩ ⟨INT8_CODE, 0, ⟨[1/5], [0], 0⟩⟩
      ⟨INT32_CODE, 0, ⟨[1/20], [0], 1⟩⟩ ⟨[5, 0, 0, 0]⟩ [5] (1/20) (1/10) (1/5) 0
      false [12] rfl rfl rfl rfl rfl
      (by norm_num [bytesToInt32List, int32OfLEBytes, bind_ok])
      (by norm_num [quantize_data, dequantize_data, clip_range, roundHalfEven])
    rw [h]
    simp [npAstypeInt64_twelve, int64sToBytes_single_12]
    norm_num
  · simp [Tensor.mk.injEq, INT64_CODE, INT32_CODE]

/-- C4 (amended): with input scale `0.1` and weight scale `0.2` the new bias
scale is `0.02` with zero point `0`; the int32 buffer `[5, -5]` at scale
`0.05`, zero point `0` dequantizes to `[0.25, -0.25]`; re-quantizing at scale
`0.02` divides to exactly `±12.5`, which `np.round` takes to the even integer,
so the stored 64-bit values are `[12, -12]`. -/
theorem set_bias_conversion_example :
    dequantize_data [(5:ℚ), -5] (1/20) 0 = [1/4, -1/4] ∧
    set_bias_type_int64 [⟨[5, 0, 0, 0, 251, 255, 255, 255]⟩]
        ⟨INT16_CODE, 0, ⟨[1/10], [0], 0⟩⟩
        ⟨INT8_CODE, 0, ⟨[1/5], [0], 0⟩⟩
        ⟨INT32_CODE, 0, ⟨[1/20], [0], 0⟩⟩ =
      .ok ([⟨[12, 0, 0, 0, 0, 0, 0, 0,
              244, 255, 255, 255, 255, 255, 255, 255]⟩],
        ⟨INT64_CODE, 0, ⟨[1/50], [0], 0⟩⟩) := by
  constructor
  · norm_num [dequantize_data]
  · have h := set_bias_type_int64_aux [⟨[5, 0, 0, 0, 251, 255, 255, 255]⟩]
      ⟨INT16_CODE, 0, ⟨[1/10], [0], 0⟩⟩ ⟨INT8_CODE, 0, ⟨[1/5], [0], 0⟩⟩
      ⟨INT32_CODE, 0, ⟨[1/20], [0], 0⟩⟩ ⟨[5, 0, 0, 0, 251, 255, 255, 255]⟩ [5, -5]
      (1/20) (1/10) (1/5) 0 false [12, -12] rfl rfl rfl rfl rfl
      (by norm_num [bytesToInt32List, int32OfLEBytes, bind_ok])
      (by
        norm_num [quantize_data, dequantize_data, clip_range, roundHalfEven]
        intro hc
        simp at hc)
    rw [h]
    simp [npAstypeInt64_twelve, npAstypeInt64_neg_twelve, int64sToBytes_12_neg12]
    norm_num

/-- C4 counterexample: the stored 64-bit values are not `[13, -13]`: the
re-quantization of `[0.25, -0.25]` at scale `0.02` yields `[12, -12]`. -/
theorem set_bias_conversion_example_not_13 :
    quantize_data (dequantize_data [(5:ℚ), -5] (1/20) 0) ((1/10) * (1/5)) 0 64 =
      .ok (false, [12, -12]) ∧
    quantize_data (dequantize_data [(5:ℚ), -5] (1/20) 0) ((1/10) * (1/5)) 0 64 ≠
      .ok (false, [13, -13]) := by
  have h : quantize_data (dequantize_data [(5:ℚ), -5] (1/20) 0) ((1/10) * (1/5)) 0 64 =
      .ok (false, [12, -12]) := by
    norm_num [quantize_data, dequantize_data, clip_range, roundHalfEven]
    intro hc
    simp at hc
  refine ⟨h, ?_⟩
  rw [h]
  intro hc
  injection hc with hc'
  rw [Prod.mk.injEq] at hc'
  simp at hc'

/-- C2: for a bias tensor whose buffer decodes to the int32 sequence `q`,
with bias scale `sb`, bias zero point `zb`, input scale `si` and weight scale
`sw`, bias retyping overwrites the buffer with the 64-bit little-endian
encoding of `quantize(dequantize(q, sb, zb), si*sw, 0, 64)`, sets the bias
type to the 64-bit signed code, and sets its quantization to scale `[si*sw]`
and zeroPoint `[0]`. -/
theorem set_bias_type_int64_spec (buffers : List Buffer) (input weight bias : Tensor)
    (buf : Buffer) (q : List ℤ) (sb si sw : ℚ) (zb : ℤ) (w : Bool) (vals : List ℚ)
    (hbuf : buffers[bias.buffer]? = some buf)
    (hsb : bias.quantization.scale.head? = some sb)
    (hzb : bias.quantization.zeroPoint.head? = some zb)
    (hsi : input.quantization.scale.head? = some si)
    (hsw : weight.quantization.scale.head? = some sw)
    (hq : bytesToInt32List buf.data = .ok q)
    (hquant : quantize_data (dequantize_data (q.map fun x : ℤ => (x:ℚ)) sb zb)
        (si * sw) 0 64 = .ok (w, vals)) :
    set_bias_type_int64 buffers input weight bias =
      .ok (buffers.set bias.buffer
            { buf with data := int64sToBytes (vals.map npAstypeInt64) },
          { bias with
              type := INT64_CODE,
              quantization := { bias.quantization with
                                  scale := [si * sw], zeroPoint := [0] } }) :=
  set_bias_type_int64_aux buffers input weight bias buf q sb si sw zb w vals
    hbuf hsb hzb hsi hsw hq hquant

/-- C2 witness: bias buffer `[5]` at scale `1/2`, zero point `3`, input scale
`1/8`, weight scale `1/4`: the value requantizes to `32`. -/
theorem set_bias_type_int64_spec_witness :
    set_bias_type_int64 [⟨[5, 0, 0, 0]⟩]
        ⟨INT16_CODE, 0, ⟨[1/8], [0], 0⟩⟩
        ⟨INT8_CODE, 0, ⟨[1/4], [0], 0⟩⟩
        ⟨INT32_CODE, 0, ⟨[1/2], [3], 0⟩⟩ =
      .ok ([(⟨[5, 0, 0, 0]⟩ : Buffer)].set 0
            ⟨int64sToBytes ([(32:ℚ)].map npAstypeInt64)⟩,
          ⟨INT64_CODE, 0, ⟨[(1/8 : ℚ) * (1/4)], [0], 0⟩⟩) :=
  set_bias_type_int64_spec [⟨[5, 0, 0, 0]⟩]
    ⟨INT16_CODE, 0, ⟨[1/8], [0], 0⟩⟩
    ⟨INT8_CODE, 0, ⟨[1/4], [0], 0⟩⟩
    ⟨INT32_CODE, 0, ⟨[1/2], [3], 0⟩⟩
    ⟨[5, 0, 0, 0]⟩ [5] (1/2) (1/8) (1/4) 3 false [32]
    rfl rfl rfl rfl rfl
    (by norm_num [bytesToInt32List, int32OfLEBytes, bind_ok])
    (by norm_num [quantize_data, dequantize_data, clip_range, roundHalfEven])

/-- C8: for a softmax operator whose input processing succeeds and whose
output slot is a different tensor than the input slot, the output tensor is
forced to `scale = [1/32768]`, `zeroPoint = [0]`, type 16-bit when its type is
the 8-bit code — regardless of its prior scale and zero point — and is left
unchanged otherwise. -/
theorem requantize_softmax_output (tensors : List Tensor) (buffers : List Buffer)
    (op : Operator) (i0 o0 : ℤ) (ni no : ℕ) (tin tin' tout : Tensor)
    (hi : pyListGet op.inputs 0 = .ok i0)
    (ho : pyListGet op.outputs 0 = .ok o0)
    (hni : pyNormIndex tensors.length i0 = .ok ni)
    (hno : pyNormIndex tensors.length o0 = .ok no)
    (hdiff : ni ≠ no)
    (htin : tensors[ni]? = some tin)
    (htout : tensors[no]? = some tout)
    (hact : change_activation_tensor_8to16 tin = .ok tin') :
    requantize_softmax tensors buffers op =
      if tout.type = INT8_CODE then
        .ok ((tensors.set ni tin').set no
          { tout with
              type := INT16_CODE,
              quantization := { tout.quantization with
                                  scale := [1/32768], zeroPoint := [0] } })
      else
        .ok (tensors.set ni tin') := by
  have hg1 : pyListGet tensors i0 = .ok tin := pyListGet_ok hni htin
  have hg2 : pyListGet tensors o0 = .ok tout := pyListGet_ok hno htout
  have hca : change_activation_at tensors i0 = .ok (tensors.set ni tin') :=
    change_activation_at_ok hni htin hact
  have hlen : (tensors.set ni tin').length = tensors.length := by simp
  have hno' : pyNormIndex (tensors.set ni tin').length o0 = .ok no := by
    rw [hlen]
    exact hno
  have htout' : (tensors.set ni tin')[no]? = some tout := by
    rw [List.getElem?_set_ne hdiff]
    exact htout
  have hg3 : pyListGet (tensors.set ni tin') o0 = .ok tout := pyListGet_ok hno' htout'
  simp only [requantize_softmax, hi, ho, hg1, hg2, hca, hg3, hno', bind_ok]

/-- C8 witness: a softmax op over an int32 input (left alone) and an int8
output, which gets the fixed 16-bit parameters. -/
theorem requantize_softmax_output_witness :
    requantize_softmax
        [⟨INT32_CODE, 0, ⟨[1], [0], 0⟩⟩, ⟨INT8_CODE, 0, ⟨[3/4], [5], 0⟩⟩] []
        ⟨[0], [1]⟩ =
      .ok [⟨INT32_CODE, 0, ⟨[1], [0], 0⟩⟩,
           ⟨INT16_CODE, 0, ⟨[1/32768], [0], 0⟩⟩] := by
  rw [requantize_softmax_output
    [⟨INT32_CODE, 0, ⟨[1], [0], 0⟩⟩, ⟨INT8_CODE, 0, ⟨[3/4], [5], 0⟩⟩] []
    ⟨[0], [1]⟩ 0 1 0 1
    ⟨INT32_CODE, 0, ⟨[1], [0], 0⟩⟩ ⟨INT32_CODE, 0, ⟨[1], [0], 0⟩⟩
    ⟨INT8_CODE, 0, ⟨[3/4], [5], 0⟩⟩
    rfl rfl rfl rfl (by decide) rfl rfl rfl]
  simp

theorem set_bias_type_int64_preserves (buffers : List Buffer) (input weight bias : Tensor)
    (bufs' : List Buffer) (b' : Tensor)
    (h : set_bias_type_int64 buffers input weight bias = .ok (bufs', b'))
    (j : ℕ) (hj : j ≠ bias.buffer) : bufs'[j]? = buffers[j]? := by
  simp only [set_bias_type_int64] at h
  cases h1 : buffers[bias.buffer]? with
  | none =>
    simp only [h1, bind_error] at h
    exact Except.noConfusion h
  | some buf =>
  simp only [h1, bind_ok] at h
  cases h2 : bias.quantization.scale.head? with
  | none =>
    simp only [h2, bind_error] at h
    exact Except.noConfusion h
  | some sb =>
  simp only [h2, bind_ok] at h
  cases h3 : bias.quantization.zeroPoint.head? with
  | none =>
    simp only [h3, bind_error] at h
    exact Except.noConfusion h
  | some zb =>
  simp only [h3, bind_ok] at h
  cases h4 : bytesToInt32List buf.data with
  | error e =>
    simp only [h4, bind_error] at h
    exact Except.noConfusion h
  | ok q =>
  simp only [h4, bind_ok] at h
  cases h5 : input.quantization.scale.head? with
  | none =>
    simp only [h5, bind_error] at h
    exact Except.noConfusion h
  | some si =>
  simp only [h5, bind_ok] at h
  cases h6 : weight.quantization.scale.head? with
  | none =>
    simp only [h6, bind_error] at h
    exact Except.noConfusion h
  | some sw =>
  simp only [h6, bind_ok] at h
  cases h7 : quantize_data (dequantize_data (q.map fun x : ℤ => (x:ℚ)) sb zb) (si * sw) 0 64 with
  | error e =>
    simp only [h7, bind_error] at h
    exact Except.noConfusion h
  | ok p =>
  simp only [h7, bind_ok] at h
  injection h with h'
  rw [Prod.mk.injEq] at h'
  rw [← h'.1, List.getElem?_set_ne (Ne.symm hj)]

/-- C9: a fully-connected operator retypes the input and output activation
tensors and never modifies the weight tensor.  Part 1: with the absent-bias
sentinel `-1` in input slot 2, the result is exactly the two activation
retypings — the buffer table is untouched, no bias-related mutation happens,
and no error is raised; the weight slot still holds the original weight.
Part 2: with a bias present, the weight tensor's slot and the buffer it
references are still unchanged. -/
theorem requantize_fully_connected_spec :
    (∀ (tensors : List Tensor) (buffers : List Buffer) (op : Operator)
        (i0 i1 o0 : ℤ) (ni n1 no : ℕ) (tin tin' tw tout tout' : Tensor),
      pyListGet op.inputs 0 = .ok i0 →
      pyListGet op.inputs 1 = .ok i1 →
      pyListGet op.inputs 2 = .ok (-1) →
      pyListGet op.outputs 0 = .ok o0 →
      pyNormIndex tensors.length i0 = .ok ni →
      pyNormIndex tensors.length i1 = .ok n1 →
      pyNormIndex tensors.length o0 = .ok no →
      ni ≠ no → n1 ≠ ni → n1 ≠ no →
      tensors[ni]? = some tin →
      tensors[n1]? = some tw →
      tensors[no]? = some tout →
      change_activation_tensor_8to16 tin = .ok tin' →
      change_activation_tensor_8to16 tout = .ok tout' →
      requantize_fully_connected tensors buffers op =
          .ok ((tensors.set ni tin').set no tout', buffers) ∧
        ((tensors.set ni tin').set no tout')[n1]? = some tw) ∧
    (∀ (tensors : List Tensor) (buffers : List Buffer) (op : Operator)
        (i0 i1 bidx o0 : ℤ) (ni n1 nb no : ℕ)
        (tin tin' tw tout tout' tb tb' : Tensor) (bufs' : List Buffer),
      pyListGet op.inputs 0 = .ok i0 →
      pyListGet op.inputs 1 = .ok i1 →
      pyListGet op.inputs 2 = .ok bidx →
      bidx ≠ -1 →
      pyListGet op.outputs 0 = .ok o0 →
      pyNormIndex tensors.length i0 = .ok ni →
      pyNormIndex tensors.length i1 = .ok n1 →
      pyNormIndex tensors.length bidx = .ok nb →
      pyNormIndex tensors.length o0 = .ok no →
      ni ≠ no → n1 ≠ ni → n1 ≠ no → n1 ≠ nb → nb ≠ ni → nb ≠ no →
      tensors[ni]? = some tin →
      tensors[n1]? = some tw →
      tensors[no]? = some tout →
      tensors[nb]? = some tb →
      change_activation_tensor_8to16 tin = .ok tin' →
      change_activation_tensor_8to16 tout = .ok tout' →
      set_bias_type_int64 buffers tin' tw tb = .ok (bufs', tb') →
      tw.buffer ≠ tb.buffer →
      requantize_fully_connected tensors buffers op =
          .ok ((((tensors.set ni tin').set no tout').set nb tb'), bufs') ∧
        ((((tensors.set ni tin').set no tout').set nb tb'))[n1]? = some tw ∧
        bufs'[tw.buffer]? = buffers[tw.buffer]?) := by
  constructor
  · intro tensors buffers op i0 i1 o0 ni n1 no tin tin' tw tout tout'
      h0 h1 h2 ho hni hn1 hno hino hw1 hw2 htin htw htout hactin hactout
    have hgin := pyListGet_ok hni htin
    have hgw := pyListGet_ok hn1 htw
    have hgout := pyListGet_ok hno htout
    have hca1 := change_activation_at_ok hni htin hactin
    have hlen1 : (tensors.set ni tin').length = tensors.length := by simp
    have hnoT1 : pyNormIndex (tensors.set ni tin').length o0 = .ok no := by
      rw [hlen1]
      exact hno
    have htoutT1 : (tensors.set ni tin')[no]? = some tout := by
      rw [List.getElem?_set_ne hino]
      exact htout
    have hca2 := change_activation_at_ok hnoT1 htoutT1 hactout
    refine ⟨?_, ?_⟩
    · simp only [requantize_fully_connected, h0, hgin, h1, hgw, ho, hgout,
        hca1, hca2, h2, bind_ok]
      simp
    · rw [List.getElem?_set_ne (Ne.symm hw2), List.getElem?_set_ne (Ne.symm hw1)]
      exact htw
  · intro tensors buffers op i0 i1 bidx o0 ni n1 nb no tin tin' tw tout tout' tb tb' bufs'
      h0 h1 h2 hb ho hni hn1 hnb hno hino hw1 hw2 hw3 hbni hbno
      htin htw htout htb hactin hactout hset hwb
    have hgin := pyListGet_ok hni htin
    have hgw := pyListGet_ok hn1 htw
    have hgout := pyListGet_ok hno htout
    have hca1 := change_activation_at_ok hni htin hactin
    have hlen1 : (tensors.set ni tin').length = tensors.length := by simp
    have hnoT1 : pyNormIndex (tensors.set ni tin').length o0 = .ok no := by
      rw [hlen1]
      exact hno
    have htoutT1 : (tensors.set ni tin')[no]? = some tout := by
      rw [List.getElem?_set_ne hino]
      exact htout
    have hca2 := change_activation_at_ok hnoT1 htoutT1 hactout
    have hlen2 : (((tensors.set ni tin').set no tout')).length = tensors.length := by simp
    have hnbT2 : pyNormIndex (((tensors.set ni tin').set no tout')).length bidx = .ok nb := by
      rw [hlen2]
      exact hnb
    have htbT2 : (((tensors.set ni tin').set no tout'))[nb]? = some tb := by
      rw [List.getElem?_set_ne (Ne.symm hbno), List.getElem?_set_ne (Ne.symm hbni)]
      exact htb
    have hgb := pyListGet_ok hnbT2 htbT2
    have hniT2 : pyNormIndex (((tensors.set ni tin').set no tout')).length i0 = .ok ni := by
      rw [hlen2]
      exact hni
    have htinT2 : (((tensors.set ni tin').set no tout'))[ni]? = some tin' := by
      rw [List.getElem?_set_ne (Ne.symm hino)]
      exact List.getElem?_set_eq_of_lt tin' (pyNormIndex_lt hni)
    have hgin2 := pyListGet_ok hniT2 htinT2
    have hn1T2 : pyNormIndex (((tensors.set ni tin').set no tout')).length i1 = .ok n1 := by
      rw [hlen2]
      exact hn1
    have htwT2 : (((tensors.set ni tin').set no tout'))[n1]? = some tw := by
      rw [List.getElem?_set_ne (Ne.symm hw2), List.getElem?_set_ne (Ne.symm hw1)]
      exact htw
    have hgw2 := pyListGet_ok hn1T2 htwT2
    refine ⟨?_, ?_, ?_⟩
    · simp only [requantize_fully_connected, h0, hgin, h1, hgw, ho, hgout,
        hca1, hca2, h2, bind_ok]
      rw [if_pos hb]
      simp only [hgb, hgin2, hgw2, hset, hnbT2, bind_ok]
    · rw [List.getElem?_set_ne (Ne.symm hw3)]
      exact htwT2
    · exact set_bias_type_int64_preserves buffers tin' tw tb bufs' tb' hset tw.buffer hwb

/-- C9 witness: a dense operator with absent bias (sentinel `-1`) and one
with a bias present; in both runs the weight slot is untouched. -/
theorem requantize_fully_connected_spec_witness :
    (requantize_fully_connected
        [⟨INT32_CODE, 0, ⟨[1], [0], 0⟩⟩, ⟨INT8_CODE, 0, ⟨[1], [0], 0⟩⟩,
         ⟨INT32_CODE, 0, ⟨[2], [0], 0⟩⟩] [⟨[9]⟩] ⟨[0, 1, -1], [2]⟩ =
        .ok ([⟨INT32_CODE, 0, ⟨[1], [0], 0⟩⟩, ⟨INT8_CODE, 0, ⟨[1], [0], 0⟩⟩,
              ⟨INT32_CODE, 0, ⟨[2], [0], 0⟩⟩], [⟨[9]⟩]) ∧
      ([⟨INT32_CODE, 0, ⟨[1], [0], 0⟩⟩, ⟨INT8_CODE, 0, ⟨[1], [0], 0⟩⟩,
        (⟨INT32_CODE, 0, ⟨[2], [0], 0⟩⟩ : Tensor)])[1]? =
        some ⟨INT8_CODE, 0, ⟨[1], [0], 0⟩⟩) ∧
    (requantize_fully_connected
        [⟨INT32_CODE, 0, ⟨[1/8], [0], 0⟩⟩, ⟨INT8_CODE, 1, ⟨[1/4], [0], 0⟩⟩,
         ⟨INT32_CODE, 0, ⟨[2], [0], 0⟩⟩, ⟨INT32_CODE, 0, ⟨[1/2], [3], 0⟩⟩]
        [⟨[5, 0, 0, 0]⟩] ⟨[0, 1, 3], [2]⟩ =
        .ok ([⟨INT32_CODE, 0, ⟨[1/8], [0], 0⟩⟩, ⟨INT8_CODE, 1, ⟨[1/4], [0], 0⟩⟩,
              ⟨INT32_CODE, 0, ⟨[2], [0], 0⟩⟩,
              ⟨INT64_CODE, 0, ⟨[(1/8 : ℚ) * (1/4)], [0], 0⟩⟩],
          [⟨int64sToBytes (List.map npAstypeInt64 [(32:ℚ)])⟩]) ∧
      ([⟨INT32_CODE, 0, ⟨[1/8], [0], 0⟩⟩, ⟨INT8_CODE, 1, ⟨[1/4], [0], 0⟩⟩,
        ⟨INT32_CODE, 0, ⟨[2], [0], 0⟩⟩,
        (⟨INT64_CODE, 0, ⟨[(1/8 : ℚ) * (1/4)], [0], 0⟩⟩ : Tensor)])[1]? =
        some ⟨INT8_CODE, 1, ⟨[1/4], [0], 0⟩⟩ ∧
      ([(⟨int64sToBytes (List.map npAstypeInt64 [(32:ℚ)])⟩ : Buffer)])[1]? =
        ([(⟨[5, 0, 0, 0]⟩ : Buffer)])[1]?) :=
  ⟨requantize_fully_connected_spec.1
      [⟨INT32_CODE, 0, ⟨[1], [0], 0⟩⟩, ⟨INT8_CODE, 0, ⟨[1], [0], 0⟩⟩,
       ⟨INT32_CODE, 0, ⟨[2], [0], 0⟩⟩] [⟨[9]⟩] ⟨[0, 1, -1], [2]⟩
      0 1 2 0 1 2
      ⟨INT32_CODE, 0, ⟨[1], [0], 0⟩⟩ ⟨INT32_CODE, 0, ⟨[1], [0], 0⟩⟩
      ⟨INT8_CODE, 0, ⟨[1], [0], 0⟩⟩
      ⟨INT32_CODE, 0, ⟨[2], [0], 0⟩⟩ ⟨INT32_CODE, 0, ⟨[2], [0], 0⟩⟩
      rfl rfl rfl rfl rfl rfl rfl (by decide) (by decide) (by decide)
      rfl rfl rfl rfl rfl,
   requantize_fully_connected_spec.2
      [⟨INT32_CODE, 0, ⟨[1/8], [0], 0⟩⟩, ⟨INT8_CODE, 1, ⟨[1/4], [0], 0⟩⟩,
       ⟨INT32_CODE, 0, ⟨[2], [0], 0⟩⟩, ⟨INT32_CODE, 0, ⟨[1/2], [3], 0⟩⟩]
      [⟨[5, 0, 0, 0]⟩] ⟨[0, 1, 3], [2]⟩
      0 1 3 2 0 1 3 2
      ⟨INT32_CODE, 0, ⟨[1/8], [0], 0⟩⟩ ⟨INT32_CODE, 0, ⟨[1/8], [0], 0⟩⟩
      ⟨INT8_CODE, 1, ⟨[1/4], [0], 0⟩⟩
      ⟨INT32_CODE, 0, ⟨[2], [0], 0⟩⟩ ⟨INT32_CODE, 0, ⟨[2], [0], 0⟩⟩
      ⟨INT32_CODE, 0, ⟨[1/2], [3], 0⟩⟩
      ⟨INT64_CODE, 0, ⟨[(1/8 : ℚ) * (1/4)], [0], 0⟩⟩
      [⟨int64sToBytes (List.map npAstypeInt64 [(32:ℚ)])⟩]
      rfl rfl rfl (by decide) rfl rfl rfl rfl rfl
      (by decide) (by decide) (by decide) (by decide) (by decide) (by decide)
      rfl rfl rfl rfl rfl rfl
      (set_bias_type_int64_aux [⟨[5, 0, 0, 0]⟩]
        ⟨INT32_CODE, 0, ⟨[1/8], [0], 0⟩⟩ ⟨INT8_CODE, 1, ⟨[1/4], [0], 0⟩⟩
        ⟨INT32_CODE, 0, ⟨[1/2], [3], 0⟩⟩
        ⟨[5, 0, 0, 0]⟩ [5] (1/2) (1/8) (1/4) 3 false [32]
        rfl rfl rfl rfl rfl
        (by norm_num [bytesToInt32List, int32OfLEBytes, bind_ok])
        (by norm_num [quantize_data, dequantize_data, clip_range, roundHalfEven]))
      (by decide)⟩

end Requantize

